import Mathlib

/-!
Verification of the follow/unfollow lifecycle core of the `bot-insta`
repository.  The SQLite-backed account stores of the three variants
(`simple_bot.py`, `dev2/optimized_bot.py`, `improved_db_schema.py` with its
driver `instagram_automation.py`) are embedded shallowly: a table is a list of
rows in rowid order, timestamps are seconds as `Nat`, SQL `NULL` is `Option`,
and each Python method becomes one Lean function over the list.
-/

/-- Seconds in the fixed 24-hour follow-back check window
(`timedelta(hours=24)` in all three variants). -/
def hours24 : Nat := 24 * 3600

/-- Generic insertion of an element into a list sorted on a `Nat` key;
building block of the embedding of SQL `ORDER BY`. -/
def insertByKey (key : α → Nat) (a : α) : List α → List α
  | [] => [a]
  | b :: l => if key a ≤ key b then a :: b :: l else b :: insertByKey key a l

/-- Insertion sort on a `Nat` key: the embedding of SQL `ORDER BY key ASC`. -/
def sortByKey (key : α → Nat) : List α → List α
  | [] => []
  | a :: l => insertByKey key a (sortByKey key l)

/-- Membership is preserved by `insertByKey`. -/
theorem mem_insertByKey {key : α → Nat} {a x : α} {l : List α} :
    x ∈ insertByKey key a l ↔ x = a ∨ x ∈ l := by
  induction l with
  | nil => simp [insertByKey]
  | cons b l ih =>
    by_cases h : key a ≤ key b
    · simp [insertByKey, h]
    · simp [insertByKey, h, ih]
      tauto

/-- Membership is preserved by `sortByKey`. -/
theorem mem_sortByKey {key : α → Nat} {x : α} {l : List α} :
    x ∈ sortByKey key l ↔ x ∈ l := by
  induction l with
  | nil => simp [sortByKey]
  | cons a l ih => simp [sortByKey, mem_insertByKey, ih]

/-- `sortByKey` preserves length. -/
theorem length_sortByKey {key : α → Nat} {l : List α} :
    (sortByKey key l).length = l.length := by
  induction l with
  | nil => rfl
  | cons a l ih =>
    have hins : ∀ (m : List α), (insertByKey key a m).length = m.length + 1 := by
      intro m
      induction m with
      | nil => rfl
      | cons b m ihm =>
        by_cases h : key a ≤ key b
        · simp [insertByKey, h]
        · simp [insertByKey, h, ihm]
    simp [sortByKey, hins, ih]

/-- Sorting a list that is already sorted on the key is the identity; this is
how `ORDER BY id` interacts with rowid-ordered tables. -/
theorem sortByKey_eq_self {key : α → Nat} {l : List α}
    (h : l.Pairwise (fun x y => key x ≤ key y)) : sortByKey key l = l := by
  induction l with
  | nil => rfl
  | cons a l ih =>
    have ha : ∀ b ∈ l, key a ≤ key b := (List.pairwise_cons.mp h).1
    have hl := (List.pairwise_cons.mp h).2
    rw [sortByKey, ih hl]
    cases l with
    | nil => rfl
    | cons b l' =>
      have : key a ≤ key b := ha b (by simp)
      simp [insertByKey, this]

/-! ## The `SimpleDatabase` store (`simple_bot.py`)

Table `followers (id, username UNIQUE, followed_at, check_unfollow_at,
unfollowed_at, follows_back)`. -/

/-- One row of the `followers` table of `simple_bot.py`. -/
structure SRow where
  id : Nat
  username : String
  followed_at : Option Nat := none
  check_unfollow_at : Option Nat := none
  unfollowed_at : Option Nat := none
  follows_back : Option Bool := none
deriving DecidableEq

/-- Rowid SQLite assigns to the next insert: one more than the largest rowid. -/
def SRow.nextId (db : List SRow) : Nat :=
  1 + db.foldr (fun r m => Nat.max r.id m) 0

/-- `SimpleDatabase.add_follower`: `INSERT OR IGNORE INTO followers (username)`;
returns `True` exactly when a row was inserted (`cursor.rowcount > 0`). -/
def SimpleDB.add_follower (db : List SRow) (username : String) :
    List SRow × Bool :=
  if db.any (fun r => decide (r.username = username)) then (db, false)
  else (db ++ [{ id := SRow.nextId db, username := username }], true)

/-- `SimpleDatabase.get_users_to_follow`:
`SELECT username FROM followers WHERE followed_at IS NULL LIMIT ?`. -/
def SimpleDB.get_users_to_follow (db : List SRow) (limit : Nat) : List String :=
  ((db.filter (fun r => decide (r.followed_at = none))).take limit).map
    (fun r => r.username)

/-- `SimpleDatabase.mark_followed`: sets `followed_at = now` and
`check_unfollow_at = now + 24h` on the row with the given username. -/
def SimpleDB.mark_followed (db : List SRow) (now : Nat) (username : String) :
    List SRow :=
  db.map (fun r =>
    if r.username = username then
      { r with followed_at := some now, check_unfollow_at := some (now + hours24) }
    else r)

/-- `SimpleDatabase.get_users_to_check_unfollow`:
`SELECT username FROM followers WHERE check_unfollow_at <= now AND
unfollowed_at IS NULL AND follows_back IS NULL` (SQL comparison with `NULL`
is not satisfied). -/
def SimpleDB.get_users_to_check_unfollow (db : List SRow) (now : Nat) :
    List String :=
  (db.filter (fun r =>
      (match r.check_unfollow_at with
       | some c => decide (c ≤ now)
       | none => false)
      && decide (r.unfollowed_at = none)
      && decide (r.follows_back = none))).map (fun r => r.username)

/-- `SimpleDatabase.mark_follow_back_status`: sets `follows_back` on the row
with the given username. -/
def SimpleDB.mark_follow_back_status (db : List SRow) (username : String)
    (fb : Bool) : List SRow :=
  db.map (fun r =>
    if r.username = username then { r with follows_back := some fb } else r)

/-- `SimpleDatabase.mark_unfollowed`: sets `unfollowed_at = now` on the row
with the given username. -/
def SimpleDB.mark_unfollowed (db : List SRow) (now : Nat) (username : String) :
    List SRow :=
  db.map (fun r =>
    if r.username = username then { r with unfollowed_at := some now } else r)

/-! ## The `OptimizedDatabase` store (`dev2/optimized_bot.py`)

Table `followers (id, username UNIQUE, profile_link, followed_at,
check_unfollow_at, unfollowed_at, follows_back, status DEFAULT 'pending')`. -/

/-- Values of the `status` column of `dev2/optimized_bot.py`
(`'pending'`, `'followed'`, `'follows_back'`, `'no_follow_back'`,
`'unfollowed'`). -/
inductive OStatus where
  | pending
  | followed
  | follows_back
  | no_follow_back
  | unfollowed
deriving DecidableEq

/-- One row of the `followers` table of `dev2/optimized_bot.py`. -/
structure ORow where
  id : Nat
  username : String
  profile_link : String
  followed_at : Option Nat := none
  check_unfollow_at : Option Nat := none
  unfollowed_at : Option Nat := none
  follows_back : Option Bool := none
  status : OStatus := .pending
deriving DecidableEq

/-- Rowid SQLite assigns to the next insert in the optimized store. -/
def ORow.nextId (db : List ORow) : Nat :=
  1 + db.foldr (fun r m => Nat.max r.id m) 0

/-- Link normalization done by `OptimizedDatabase.add_follower`: a link not
starting with `http` is replaced by the canonical profile URL. -/
def OptDB.normalize_link (username profile_link : String) : String :=
  if profile_link.startsWith "http" then profile_link
  else "https://www.instagram.com/" ++ username ++ "/"

/-- `OptimizedDatabase.add_follower`: normalizes the link, then
`INSERT OR IGNORE INTO followers (username, profile_link, status) VALUES
(?, ?, 'pending')`; returns `True` exactly when a row was inserted. -/
def OptDB.add_follower (db : List ORow) (username profile_link : String) :
    List ORow × Bool :=
  let link := OptDB.normalize_link username profile_link
  if db.any (fun r => decide (r.username = username)) then (db, false)
  else
    (db ++ [{ id := ORow.nextId db, username := username, profile_link := link }],
     true)

/-- `OptimizedDatabase.get_users_to_follow`:
`SELECT username, profile_link FROM followers WHERE status = 'pending'
ORDER BY id LIMIT ?`. -/
def OptDB.get_users_to_follow (db : List ORow) (limit : Nat) :
    List (String × String) :=
  (((sortByKey (fun r => r.id)
        (db.filter (fun r => decide (r.status = OStatus.pending)))).take limit).map
    (fun r => (r.username, r.profile_link)))

/-- `OptimizedDatabase.mark_followed`: unconditional
`UPDATE followers SET followed_at = now, check_unfollow_at = now + 24h,
status = 'followed' WHERE username = ?`. -/
def OptDB.mark_followed (db : List ORow) (now : Nat) (username : String) :
    List ORow :=
  db.map (fun r =>
    if r.username = username then
      { r with followed_at := some now, check_unfollow_at := some (now + hours24),
               status := OStatus.followed }
    else r)

/-- `OptimizedDatabase.get_users_to_check_unfollow`:
`SELECT username, profile_link FROM followers WHERE check_unfollow_at <= now
AND status = 'followed' AND follows_back IS NULL`. -/
def OptDB.get_users_to_check_unfollow (db : List ORow) (now : Nat) :
    List (String × String) :=
  (db.filter (fun r =>
      (match r.check_unfollow_at with
       | some c => decide (c ≤ now)
       | none => false)
      && decide (r.status = OStatus.followed)
      && decide (r.follows_back = none))).map (fun r => (r.username, r.profile_link))

/-- `OptimizedDatabase.mark_follow_back_status`: unconditional
`UPDATE followers SET follows_back = ?, status = ? WHERE username = ?` where
the status is `'follows_back'` or `'no_follow_back'`. -/
def OptDB.mark_follow_back_status (db : List ORow) (username : String)
    (fb : Bool) : List ORow :=
  let status := if fb then OStatus.follows_back else OStatus.no_follow_back
  db.map (fun r =>
    if r.username = username then
      { r with follows_back := some fb, status := status }
    else r)

/-- `OptimizedDatabase.mark_unfollowed`: unconditional
`UPDATE followers SET unfollowed_at = now, status = 'unfollowed'
WHERE username = ?`. -/
def OptDB.mark_unfollowed (db : List ORow) (now : Nat) (username : String) :
    List ORow :=
  db.map (fun r =>
    if r.username = username then
      { r with unfollowed_at := some now, status := OStatus.unfollowed }
    else r)

/-- Count of rows in a given status
(`SELECT status, COUNT(*) FROM followers GROUP BY status` followed by a
dictionary lookup defaulting to 0 in `OptimizedDatabase.get_stats`). -/
def OptDB.statusCount (db : List ORow) (s : OStatus) : Nat :=
  db.countP (fun r => decide (r.status = s))

/-- The follow-back rate printed by `OptimizedBot.show_stats`:
`(stats.follows_back / stats.followed) * 100`, printed only when
`stats.followed > 0` (hence `none` otherwise). -/
def OptDB.show_stats_rate (db : List ORow) : Option ℚ :=
  let followedCount := OptDB.statusCount db OStatus.followed
  let fbCount := OptDB.statusCount db OStatus.follows_back
  if 0 < followedCount then
    some (((fbCount : ℚ) / (followedCount : ℚ)) * 100)
  else none

/-! ## The `InstagramDatabase` store (`improved_db_schema.py`)

Tables `followers`, `actions`, `follow_backs` (all `AUTOINCREMENT`), driven
by the two `InstagramBot` classes of `instagram_automation.py`. -/

/-- One row of the `followers` table of `improved_db_schema.py`. -/
structure Follower where
  id : Nat
  username : String
  profile_link : String
  full_name : Option String := none
  bio : Option String := none
  followers_count : Option Int := none
  following_count : Option Int := none
  posts_count : Option Int := none
  is_verified : Int := 0
  is_private : Int := 0
  created_at : Nat
  updated_at : Nat
deriving DecidableEq

/-- One row of the `actions` audit table of `improved_db_schema.py`. -/
structure ActionRow where
  id : Nat
  follower_id : Nat
  action_type : String
  status : String
  performed_at : Nat
  scheduled_for : Option Nat := none
  error_message : Option String := none
  attempts : Nat := 0
deriving DecidableEq

/-- One row of the `follow_backs` table of `improved_db_schema.py`. -/
structure FollowBackRow where
  id : Nat
  follower_id : Nat
  followed_at : Nat
  check_scheduled_for : Nat
  followed_back : Option Bool := none
  checked_at : Option Nat := none
  unfollowed_at : Option Nat := none
deriving DecidableEq

/-- The whole store: the three tables plus the `AUTOINCREMENT` counters
(SQLite never reuses an `AUTOINCREMENT` rowid, even after a delete). -/
structure ImprovedDB where
  followers : List Follower := []
  actions : List ActionRow := []
  follow_backs : List FollowBackRow := []
  follower_seq : Nat := 0
  action_seq : Nat := 0
  fb_seq : Nat := 0
deriving DecidableEq

/-- `InstagramDatabase.add_follower`: `INSERT OR REPLACE INTO followers ...`.
On a username conflict SQLite deletes the existing row and inserts a fresh one
(new `AUTOINCREMENT` id, `created_at` set anew by its column default).
Returns `cursor.lastrowid`. -/
def ImprovedDB.add_follower (db : ImprovedDB) (now : Nat)
    (username profile_link : String) (full_name bio : Option String)
    (followers_count following_count posts_count : Option Int)
    (is_verified is_private : Int) : ImprovedDB × Nat :=
  let id := db.follower_seq + 1
  let kept := db.followers.filter (fun f => !decide (f.username = username))
  ({ db with
      followers := kept ++
        [{ id := id, username := username, profile_link := profile_link,
           full_name := full_name, bio := bio,
           followers_count := followers_count,
           following_count := following_count, posts_count := posts_count,
           is_verified := is_verified, is_private := is_private,
           created_at := now, updated_at := now }],
      follower_seq := id }, id)

/-- Whether a follower already has a completed follow action; the `LEFT JOIN
... WHERE a.id IS NULL` condition of `get_followers_to_follow`, negated. -/
def ImprovedDB.hasCompletedFollow (db : ImprovedDB) (fid : Nat) : Bool :=
  db.actions.any (fun a =>
    decide (a.follower_id = fid) && decide (a.action_type = "follow")
    && decide (a.status = "completed"))

/-- `InstagramDatabase.get_followers_to_follow`: followers with no completed
follow action, `ORDER BY created_at ASC LIMIT ?`. -/
def ImprovedDB.get_followers_to_follow (db : ImprovedDB) (limit : Nat) :
    List Follower :=
  (sortByKey (fun f => f.created_at)
    (db.followers.filter (fun f => !db.hasCompletedFollow f.id))).take limit

/-- `InstagramDatabase.record_action`: inserts an action row
(`performed_at` defaults to the current timestamp) and returns its id. -/
def ImprovedDB.record_action (db : ImprovedDB) (now : Nat) (fid : Nat)
    (action_type status : String) : ImprovedDB × Nat :=
  let id := db.action_seq + 1
  ({ db with
      actions := db.actions ++
        [{ id := id, follower_id := fid, action_type := action_type,
           status := status, performed_at := now }],
      action_seq := id }, id)

/-- `InstagramDatabase.update_action_status`:
`UPDATE actions SET status = ?, error_message = ?,
performed_at = CURRENT_TIMESTAMP WHERE id = ?`. -/
def ImprovedDB.update_action_status (db : ImprovedDB) (action_id : Nat)
    (status : String) (error_message : Option String) (now : Nat) : ImprovedDB :=
  { db with
    actions := db.actions.map (fun a =>
      if a.id = action_id then
        { a with status := status, error_message := error_message,
                 performed_at := now }
      else a) }

/-- `InstagramDatabase.schedule_follow_back_check`: inserts a `follow_backs`
row with `check_scheduled_for = followed_at + 24h` (the 24 hours are a
hard-coded `timedelta`, independent of the `follow_back_check_hours` setting). -/
def ImprovedDB.schedule_follow_back_check (db : ImprovedDB) (fid : Nat)
    (followed_at : Nat) : ImprovedDB :=
  let id := db.fb_seq + 1
  { db with
    follow_backs := db.follow_backs ++
      [{ id := id, follower_id := fid, followed_at := followed_at,
         check_scheduled_for := followed_at + hours24 }],
    fb_seq := id }

/-- `InstagramDatabase.get_follow_backs_to_check`: due, still-undecided
`follow_backs` rows joined with their follower,
`ORDER BY check_scheduled_for ASC`. -/
def ImprovedDB.get_follow_backs_to_check (db : ImprovedDB) (now : Nat) :
    List (FollowBackRow × Follower) :=
  sortByKey (fun p => p.1.check_scheduled_for)
    ((db.follow_backs.filter (fun fb =>
        decide (fb.check_scheduled_for ≤ now)
        && decide (fb.followed_back = none))).filterMap (fun fb =>
      (db.followers.find? (fun f => decide (f.id = fb.follower_id))).map
        (fun f => (fb, f))))

/-- `InstagramDatabase.update_follow_back_status`:
`UPDATE follow_backs SET followed_back = ?, checked_at = CURRENT_TIMESTAMP
WHERE id = ?`. -/
def ImprovedDB.update_follow_back_status (db : ImprovedDB) (fb_id : Nat)
    (followed_back : Bool) (now : Nat) : ImprovedDB :=
  { db with
    follow_backs := db.follow_backs.map (fun fb =>
      if fb.id = fb_id then
        { fb with followed_back := some followed_back, checked_at := some now }
      else fb) }

/-- Calendar-day of a timestamp: the embedding of SQLite `DATE(t)`. -/
def dateOf (t : Nat) : Nat := t / 86400

/-- The record returned by `InstagramDatabase.get_statistics`. -/
structure Statistics where
  total_followers : Nat
  follows_today : Nat
  unfollows_today : Nat
  follow_backs_received : Nat
  follow_back_rate : ℚ
deriving DecidableEq

/-- `InstagramDatabase.get_statistics`: per-day completed action counts,
count of received follow-backs, and the rate
`(follow_backs_received / total_checked) * 100` guarded by
`total_checked > 0`, where `total_checked` counts rows with
`followed_back IS NOT NULL`. -/
def ImprovedDB.get_statistics (db : ImprovedDB) (now : Nat) : Statistics :=
  let follows_today := db.actions.countP (fun a =>
    decide (a.action_type = "follow") && decide (a.status = "completed")
    && decide (dateOf a.performed_at = dateOf now))
  let unfollows_today := db.actions.countP (fun a =>
    decide (a.action_type = "unfollow") && decide (a.status = "completed")
    && decide (dateOf a.performed_at = dateOf now))
  let received := db.follow_backs.countP (fun fb =>
    decide (fb.followed_back = some true))
  let total_checked := db.follow_backs.countP (fun fb =>
    !decide (fb.followed_back = none))
  { total_followers := db.followers.length
    follows_today := follows_today
    unfollows_today := unfollows_today
    follow_backs_received := received
    follow_back_rate :=
      if 0 < total_checked then ((received : ℚ) / (total_checked : ℚ)) * 100
      else 0 }

/-! ## The batch runner (`instagram_automation.py`)

`instagram_automation.py` defines the class `InstagramBot` twice; the second
definition shadows the first at import time (and it is the shadowing one that
`scheduler_system.py` imports).  Both are embedded.  The executor
(`InstagramAutomation`) returns an `ActionResult` carrying only a success
flag, so its behaviour on one account is abstracted to an outcome value; a
per-account exception is caught by the loop's `try/except` and counted as a
failure. -/

/-- Per-account outcome of the follow loop body: search navigation failed,
the follow tap failed, the follow succeeded, or an exception was raised
(and caught by the loop). -/
inductive FollowOutcome where
  | searchFailed
  | followFailed
  | followOk
  | raised
deriving DecidableEq

/-- The `{'success': .., 'failed': .., 'skipped': ..}` summary of a follow
batch. -/
structure FollowStats where
  success : Nat := 0
  failed : Nat := 0
  skipped : Nat := 0
deriving DecidableEq

/-- Body of the per-follower loop shared by both `execute_follow_batch`
definitions: records a pending action, runs the executor, updates the action,
schedules the follow-back check on success, and counts the outcome.  The
executor's failure messages are abstracted to `none`. -/
def followStep (exec : String → FollowOutcome) (now : Nat)
    (acc : ImprovedDB × FollowStats) (f : Follower) : ImprovedDB × FollowStats :=
  let (db, stats) := acc
  match exec f.username with
  | .raised => (db, { stats with failed := stats.failed + 1 })
  | .searchFailed =>
      let (db1, aid) := db.record_action now f.id "follow" "pending"
      (db1.update_action_status aid "failed" none now,
       { stats with failed := stats.failed + 1 })
  | .followFailed =>
      let (db1, aid) := db.record_action now f.id "follow" "pending"
      (db1.update_action_status aid "failed" none now,
       { stats with failed := stats.failed + 1 })
  | .followOk =>
      let (db1, aid) := db.record_action now f.id "follow" "pending"
      let db2 := db1.update_action_status aid "completed" none now
      (db2.schedule_follow_back_check f.id now,
       { stats with success := stats.success + 1 })

/-- `InstagramBot.execute_follow_batch`, FIRST definition
(`instagram_automation.py` line 595): compares `follows_today` against
`max_follows_per_day` before pulling work and returns the zero summary when
the cap is reached. -/
def execute_follow_batch_def1 (db : ImprovedDB) (exec : String → FollowOutcome)
    (now maxFollows batch : Nat) : ImprovedDB × FollowStats :=
  if maxFollows ≤ (db.get_statistics now).follows_today then (db, {})
  else (db.get_followers_to_follow batch).foldl (followStep exec now) (db, {})

/-- `InstagramBot.execute_follow_batch`, SECOND definition
(`instagram_automation.py` line 939, the class that shadows the first and is
the one imported by `scheduler_system.py`): pulls and processes work with no
daily-cap comparison. -/
def execute_follow_batch_def2 (db : ImprovedDB) (exec : String → FollowOutcome)
    (now batch : Nat) : ImprovedDB × FollowStats :=
  (db.get_followers_to_follow batch).foldl (followStep exec now) (db, {})

/-- The `{'checked': .., 'following_back': .., 'not_following_back': ..}`
summary of a follow-back check run. -/
structure CheckStats where
  checked : Nat := 0
  following_back : Nat := 0
  not_following_back : Nat := 0
deriving DecidableEq

/-- Body of the `check_follow_backs` loop: `check_if_following_back` returns
only a navigation-success flag (`navOk`), and on success the code runs
`update_follow_back_status(follow_back_id, False)` — recording `False`
without any observation of reciprocation; on failure (or a caught exception)
nothing is written. -/
def checkStep (navOk : String → Bool) (now : Nat)
    (acc : ImprovedDB × CheckStats) (p : FollowBackRow × Follower) :
    ImprovedDB × CheckStats :=
  let (db, stats) := acc
  if navOk p.2.username then
    (db.update_follow_back_status p.1.id false now,
     { stats with checked := stats.checked + 1,
                  not_following_back := stats.not_following_back + 1 })
  else (db, stats)

/-- `InstagramBot.check_follow_backs` (both definitions behave identically
here): folds `checkStep` over the due follow-back rows. -/
def check_follow_backs (db : ImprovedDB) (navOk : String → Bool) (now : Nat) :
    ImprovedDB × CheckStats :=
  (db.get_follow_backs_to_check now).foldl (checkStep navOk now) (db, {})

/-- Per-account outcome of the unfollow loop body. -/
inductive UnfollowOutcome where
  | ok
  | actionFailed
  | raised
deriving DecidableEq

/-- The `{'success': .., 'failed': ..}` summary of an unfollow batch. -/
structure UnfollowStats where
  success : Nat := 0
  failed : Nat := 0
deriving DecidableEq

/-- The pull query of `execute_unfollow_batch`:
`SELECT fb.follower_id, f.username FROM follow_backs fb JOIN followers f
ON fb.follower_id = f.id WHERE fb.followed_back = 0 AND fb.unfollowed_at
IS NULL LIMIT ?` (a `NULL` `followed_back` does not satisfy `= 0`). -/
def ImprovedDB.unfollow_candidates (db : ImprovedDB) (lim : Nat) :
    List (Nat × String) :=
  ((db.follow_backs.filter (fun fb =>
      decide (fb.followed_back = some false)
      && decide (fb.unfollowed_at = none))).filterMap (fun fb =>
    (db.followers.find? (fun f => decide (f.id = fb.follower_id))).map
      (fun f => (fb.follower_id, f.username)))).take lim

/-- Body of the per-account unfollow loop: records the action, updates its
status, and on success sets `unfollowed_at` on the account's `follow_backs`
rows (`UPDATE follow_backs SET unfollowed_at = CURRENT_TIMESTAMP WHERE
follower_id = ?`); a caught exception counts as a failure. -/
def unfollowStep (uexec : String → UnfollowOutcome) (now : Nat)
    (acc : ImprovedDB × UnfollowStats) (p : Nat × String) :
    ImprovedDB × UnfollowStats :=
  let (db, stats) := acc
  match uexec p.2 with
  | .raised => (db, { stats with failed := stats.failed + 1 })
  | .actionFailed =>
      let (db1, aid) := db.record_action now p.1 "unfollow" "pending"
      (db1.update_action_status aid "failed" none now,
       { stats with failed := stats.failed + 1 })
  | .ok =>
      let (db1, aid) := db.record_action now p.1 "unfollow" "pending"
      let db2 := db1.update_action_status aid "completed" none now
      ({ db2 with
          follow_backs := db2.follow_backs.map (fun fb =>
            if fb.follower_id = p.1 then { fb with unfollowed_at := some now }
            else fb) },
       { stats with success := stats.success + 1 })

/-- `InstagramBot.execute_unfollow_batch`, FIRST definition
(`instagram_automation.py` line 697): early-returns when `unfollows_today`
has reached `max_unfollows_per_day`, and otherwise pulls at most
`max_unfollows_per_day - unfollows_today` candidates. -/
def execute_unfollow_batch_def1 (db : ImprovedDB)
    (uexec : String → UnfollowOutcome) (now maxUnfollows : Nat) :
    ImprovedDB × UnfollowStats :=
  let today := (db.get_statistics now).unfollows_today
  if maxUnfollows ≤ today then (db, {})
  else (db.unfollow_candidates (maxUnfollows - today)).foldl
    (unfollowStep uexec now) (db, {})

/-! ## Spec-side comparison definitions

These two definitions follow the SPEC's words (not the code) and exist only
to be compared against the embedded code. -/

/-- Check-due timestamp as the spec words it: `followed_at + check_delay`
for a configured `follow_back_check_hours` value (the
`follow_back_check_hours` setting defaults to 24 in `improved_db_schema.py`
but is configurable). -/
def check_due_spec (followed_at check_hours : Nat) : Nat :=
  followed_at + check_hours * 3600

/-- Follow-back rate as the spec words it:
`FOLLOWS_BACK / (FOLLOWS_BACK + NO_FOLLOW_BACK)` when the denominator is
positive, else 0. -/
def follow_back_rate_spec (fb nfb : Nat) : ℚ :=
  if 0 < fb + nfb then (fb : ℚ) / ((fb : ℚ) + (nfb : ℚ)) else 0

/-- Count of `follow_backs` rows recorded as reciprocated
(`followed_back = 1`). -/
def ImprovedDB.fbCount (db : ImprovedDB) : Nat :=
  db.follow_backs.countP (fun fb => decide (fb.followed_back = some true))

/-- Count of `follow_backs` rows recorded as not reciprocated
(`followed_back = 0`). -/
def ImprovedDB.nfbCount (db : ImprovedDB) : Nat :=
  db.follow_backs.countP (fun fb => decide (fb.followed_back = some false))

/-! ## Concrete stores used by the closed theorems -/

/-- One follower with a follow-back check due at `1000 + 24h` and
`followed_back` still unknown. -/
def c1_db : ImprovedDB :=
  { followers := [{ id := 1, username := "alice",
                    profile_link := "https://www.instagram.com/alice/",
                    created_at := 0, updated_at := 0 }],
    follow_backs := [{ id := 1, follower_id := 1, followed_at := 1000,
                       check_scheduled_for := 1000 + hours24 }],
    follower_seq := 1, fb_seq := 1 }

/-- An account that has completed the whole lifecycle and is `unfollowed`. -/
def c2_row : ORow :=
  { id := 1, username := "alice",
    profile_link := "https://www.instagram.com/alice/",
    followed_at := some 100, check_unfollow_at := some (100 + hours24),
    unfollowed_at := some 200000, follows_back := some false,
    status := OStatus.unfollowed }

/-- Optimized store holding only the terminal account `c2_row`. -/
def c2_db : List ORow := [c2_row]

/-- First `InstagramDatabase.add_follower` call: fresh `alice` row with a
full name. -/
def c3_db1 : ImprovedDB × Nat :=
  ImprovedDB.add_follower {} 10 "alice" "https://one.example/"
    (some "Alice A") none none none none 0 0

/-- Second `InstagramDatabase.add_follower` call for the same username with a
different link and no metadata. -/
def c3_db2 : ImprovedDB × Nat :=
  ImprovedDB.add_follower c3_db1.1 20 "alice" "https://two.example/"
    none none none none none 0 0

/-- Store in which one follower (`alice`) already has a completed follow
action today (`performed_at = 500`, same calendar day as `now = 600`) and one
follower (`bob`) is still pending. -/
def c5_db : ImprovedDB :=
  { followers :=
      [{ id := 1, username := "alice",
         profile_link := "https://www.instagram.com/alice/",
         created_at := 0, updated_at := 0 },
       { id := 2, username := "bob",
         profile_link := "https://www.instagram.com/bob/",
         created_at := 1, updated_at := 1 }],
    actions := [{ id := 1, follower_id := 1, action_type := "follow",
                  status := "completed", performed_at := 500 }],
    follower_seq := 2, action_seq := 1 }

/-- Simple store holding one account that was followed and then unfollowed. -/
def c6_sdb : List SRow :=
  [{ id := 1, username := "alice", followed_at := some 100,
     check_unfollow_at := some (100 + hours24), unfollowed_at := some 90000,
     follows_back := some false }]

/-- Optimized store with two pending accounts and one followed account, ids
in insertion order. -/
def c7_db : List ORow :=
  [{ id := 1, username := "alice",
     profile_link := "https://www.instagram.com/alice/" },
   { id := 2, username := "bob",
     profile_link := "https://www.instagram.com/bob/" },
   { id := 3, username := "carol",
     profile_link := "https://www.instagram.com/carol/",
     followed_at := some 10, check_unfollow_at := some (10 + hours24),
     status := OStatus.followed }]

/-- Optimized store with two accounts still `followed` and one recorded
reciprocation (and no recorded non-reciprocation). -/
def c9_db : List ORow :=
  [{ id := 1, username := "alice",
     profile_link := "https://www.instagram.com/alice/",
     followed_at := some 10, check_unfollow_at := some (10 + hours24),
     status := OStatus.followed },
   { id := 2, username := "bob",
     profile_link := "https://www.instagram.com/bob/",
     followed_at := some 20, check_unfollow_at := some (20 + hours24),
     status := OStatus.followed },
   { id := 3, username := "carol",
     profile_link := "https://www.instagram.com/carol/",
     followed_at := some 30, check_unfollow_at := some (30 + hours24),
     follows_back := some true, status := OStatus.follows_back }]

/-- Improved store with one reciprocated and one non-reciprocated checked
follow-back row. -/
def c9_idb : ImprovedDB :=
  { follow_backs :=
      [{ id := 1, follower_id := 1, followed_at := 0,
         check_scheduled_for := hours24, followed_back := some true,
         checked_at := some hours24 },
       { id := 2, follower_id := 2, followed_at := 0,
         check_scheduled_for := hours24, followed_back := some false,
         checked_at := some hours24 }],
    fb_seq := 2 }

/-- Store with one completed follow today (`alice`) and two pending accounts
(`bob`, `carol`); used to show the follow batch can overshoot its cap within
one run. -/
def c10_db : ImprovedDB :=
  { followers :=
      [{ id := 1, username := "alice",
         profile_link := "https://www.instagram.com/alice/",
         created_at := 0, updated_at := 0 },
       { id := 2, username := "bob",
         profile_link := "https://www.instagram.com/bob/",
         created_at := 1, updated_at := 1 },
       { id := 3, username := "carol",
         profile_link := "https://www.instagram.com/carol/",
         created_at := 2, updated_at := 2 }],
    actions := [{ id := 1, follower_id := 1, action_type := "follow",
                  status := "completed", performed_at := 500 }],
    follower_seq := 3, action_seq := 1 }

/-! ## Helper lemmas -/

/-- The follow loop processes every account: each iteration adds exactly one
to `success + failed`, whatever the outcome. -/
theorem followLoop_counts (exec : String → FollowOutcome) (now : Nat)
    (fs : List Follower) : ∀ (db : ImprovedDB) (stats : FollowStats),
    (fs.foldl (followStep exec now) (db, stats)).2.success
      + (fs.foldl (followStep exec now) (db, stats)).2.failed
    = stats.success + stats.failed + fs.length := by
  induction fs with
  | nil => intro db stats; simp
  | cons f fs ih =>
    intro db stats
    rw [List.foldl_cons]
    cases h : exec f.username <;> simp [followStep, h, ih] <;> omega

/-- The unfollow loop processes every account: each iteration adds exactly
one to `success + failed`, whatever the outcome. -/
theorem unfollowLoop_counts (uexec : String → UnfollowOutcome) (now : Nat)
    (us : List (Nat × String)) : ∀ (db : ImprovedDB) (stats : UnfollowStats),
    (us.foldl (unfollowStep uexec now) (db, stats)).2.success
      + (us.foldl (unfollowStep uexec now) (db, stats)).2.failed
    = stats.success + stats.failed + us.length := by
  induction us with
  | nil => intro db stats; simp
  | cons p us ih =>
    intro db stats
    rw [List.foldl_cons]
    cases h : uexec p.2 <;> simp [unfollowStep, h, ih] <;> omega

/-- `followed_back IS NOT NULL` splits into the reciprocated and the
non-reciprocated count. -/
theorem countP_followed_back_split (l : List FollowBackRow) :
    l.countP (fun fb => !decide (fb.followed_back = none))
    = l.countP (fun fb => decide (fb.followed_back = some true))
      + l.countP (fun fb => decide (fb.followed_back = some false)) := by
  induction l with
  | nil => rfl
  | cons fb l ih =>
    rcases hfb : fb.followed_back with _ | b
    · simp [List.countP_cons, hfb, ih]
    · cases b <;> simp [List.countP_cons, hfb, ih] <;> omega

/-! ## Claims -/

/-- C1: the code contradicts the claim.  For the due account of `c1_db`
whose reciprocation the executor cannot determine (the executor result
carries only a navigation-success flag), `check_follow_backs` records the
defaulted boolean `False` instead of leaving `followed_back` unknown, and the
account is no longer returned by the next due-for-check query. -/
theorem c1_unresolved_check_defaulted_to_false :
    (c1_db.get_follow_backs_to_check (1000 + hours24)).length = 1
    ∧ ((check_follow_backs c1_db (fun _ => true) (1000 + hours24)).1.follow_backs.map
        (fun fb => fb.followed_back)) = [some false]
    ∧ (check_follow_backs c1_db (fun _ => true) (1000 + hours24)).2.not_following_back = 1
    ∧ (check_follow_backs c1_db (fun _ => true) (1000 + hours24)).1.get_follow_backs_to_check
        (1000 + hours24) = [] := by
  decide

/-- C2 counterexample: requesting `mark_followed` on the `UNFOLLOWED` account
of `c2_db` is not rejected as a no-op; it mutates the row and moves its
status backwards to `FOLLOWED`. -/
theorem c2_backward_transition_not_rejected :
    ((OptDB.mark_followed c2_db 300000 "alice").map (fun r => r.status))
      = [OStatus.followed]
    ∧ OptDB.mark_followed c2_db 300000 "alice" ≠ c2_db := by
  decide

/-- C2 (amended): `OptimizedDatabase.mark_followed` and
`mark_follow_back_status` update the row with the given username
unconditionally — whatever its current lifecycle state, including
`UNFOLLOWED`, the requested transition is applied rather than rejected. -/
theorem c2_transitions_applied_unconditionally (db : List ORow) (now : Nat)
    (u : String) (fb : Bool) (r : ORow) (hmem : r ∈ db) (hu : r.username = u) :
    { r with followed_at := some now, check_unfollow_at := some (now + hours24),
             status := OStatus.followed } ∈ OptDB.mark_followed db now u
    ∧ { r with follows_back := some fb,
               status := if fb then OStatus.follows_back
                         else OStatus.no_follow_back }
        ∈ OptDB.mark_follow_back_status db u fb := by
  constructor
  · simp only [OptDB.mark_followed]
    exact List.mem_map.mpr ⟨r, hmem, by simp [hu]⟩
  · simp only [OptDB.mark_follow_back_status]
    exact List.mem_map.mpr ⟨r, hmem, by simp [hu]⟩

/-- C2 witness: the amended theorem applied to the terminal account of
`c2_db`. -/
theorem c2_witness :
    ({ c2_row with followed_at := some 300000,
                   check_unfollow_at := some (300000 + hours24),
                   status := OStatus.followed } : ORow)
      ∈ OptDB.mark_followed c2_db 300000 "alice"
    ∧ ({ c2_row with follows_back := some true,
                     status := if true then OStatus.follows_back
                               else OStatus.no_follow_back } : ORow)
      ∈ OptDB.mark_follow_back_status c2_db "alice" true :=
  c2_transitions_applied_unconditionally c2_db 300000 "alice" true c2_row
    (by decide) rfl

/-- C3 counterexample: re-adding `alice` through
`InstagramDatabase.add_follower` (`INSERT OR REPLACE`) does not leave the
existing row untouched: the link is overwritten, the stored full name is
lost, and the row gets a fresh id. -/
theorem c3_readd_replaces_row :
    (c3_db2.1.followers.map (fun f => f.profile_link)) = ["https://two.example/"]
    ∧ (c3_db1.1.followers.map (fun f => f.profile_link)) = ["https://one.example/"]
    ∧ (c3_db2.1.followers.map (fun f => f.full_name)) = [none]
    ∧ (c3_db1.1.followers.map (fun f => f.full_name)) = [some "Alice A"]
    ∧ (c3_db2.1.followers.map (fun f => f.id)) = [2]
    ∧ c3_db2.2 = 2 := by
  decide

/-- C3 (amended): in `SimpleDatabase.add_follower` (`INSERT OR IGNORE`) a
second add of the same username is an idempotent no-op — exactly one row for
the username remains, the store is left untouched, and the second call
reports already-exists by returning `False` rather than raising. -/
theorem c3_simple_add_idempotent (db : List SRow) (u : String)
    (h : db.countP (fun r => decide (r.username = u)) = 0) :
    (SimpleDB.add_follower db u).2 = true
    ∧ (SimpleDB.add_follower db u).1.countP (fun r => decide (r.username = u)) = 1
    ∧ SimpleDB.add_follower (SimpleDB.add_follower db u).1 u
        = ((SimpleDB.add_follower db u).1, false) := by
  have hnone : ∀ r ∈ db, ¬(r.username = u) := by
    intro r hr
    have hz := List.countP_eq_zero.mp h r hr
    simpa using hz
  have hany : (db.any fun r => decide (r.username = u)) = false := by
    rw [Bool.eq_false_iff]
    intro hc
    obtain ⟨r, hr, hp⟩ := List.any_eq_true.mp hc
    exact hnone r hr (by simpa using hp)
  refine ⟨?_, ?_, ?_⟩
  · simp [SimpleDB.add_follower, hany]
  · simp [SimpleDB.add_follower, hany, List.countP_append, List.countP_cons, h]
  · have hmem : ((db ++ [{ id := SRow.nextId db, username := u }] : List SRow).any
        fun r => decide (r.username = u)) = true := by
      simp [List.any_append]
    simp [SimpleDB.add_follower, hany, hmem]

/-- C3 witness: the amended theorem applied to the empty store and the
username `alice`. -/
theorem c3_witness :
    (SimpleDB.add_follower [] "alice").2 = true
    ∧ (SimpleDB.add_follower [] "alice").1.countP
        (fun r => decide (r.username = "alice")) = 1
    ∧ SimpleDB.add_follower (SimpleDB.add_follower [] "alice").1 "alice"
        = ((SimpleDB.add_follower [] "alice").1, false) :=
  c3_simple_add_idempotent [] "alice" (by decide)

/-- C4 counterexample: with the `follow_back_check_hours` setting configured
to 48, the stored check-due timestamp after `mark_followed` at `t = 1000` is
`1000 + 24h = 87400`, not `followed_at + check_delay = 173800`: the
configured delay is ignored. -/
theorem c4_check_delay_config_ignored :
    ((SimpleDB.mark_followed [{ id := 1, username := "alice" }] 1000 "alice").map
      (fun r => r.check_unfollow_at)) = [some 87400]
    ∧ check_due_spec 1000 48 = 173800
    ∧ ¬((87400 : Nat) = 173800) := by
  decide

/-- C4 (amended): the stored check-due timestamp always equals
`followed_at + 24 hours` — a constant baked into `mark_followed`, independent
of the configured `follow_back_check_hours` — and it is recomputed only when
`followed_at` is set: `mark_follow_back_status`, `mark_unfollowed` and
`add_follower` never touch `check_unfollow_at` of an existing row. -/
theorem c4_check_due_fixed_24h (db : List SRow) (now : Nat) (u : String)
    (b : Bool) (r : SRow) (hmem : r ∈ db) :
    (r.username = u →
      { r with followed_at := some now, check_unfollow_at := some (now + hours24) }
        ∈ SimpleDB.mark_followed db now u)
    ∧ ((SimpleDB.mark_follow_back_status db u b).map (fun x => x.check_unfollow_at)
        = db.map (fun x => x.check_unfollow_at))
    ∧ ((SimpleDB.mark_unfollowed db now u).map (fun x => x.check_unfollow_at)
        = db.map (fun x => x.check_unfollow_at))
    ∧ ((SimpleDB.add_follower db u).1.take db.length = db) := by
  refine ⟨?_, ?_, ?_, ?_⟩
  · intro hu
    simp only [SimpleDB.mark_followed]
    exact List.mem_map.mpr ⟨r, hmem, by simp [hu]⟩
  · simp only [SimpleDB.mark_follow_back_status, List.map_map]
    refine List.map_congr_left ?_
    intro a _
    by_cases h : a.username = u <;> simp [h]
  · simp only [SimpleDB.mark_unfollowed, List.map_map]
    refine List.map_congr_left ?_
    intro a _
    by_cases h : a.username = u <;> simp [h]
  · simp only [SimpleDB.add_follower]
    by_cases h : (db.any fun r => decide (r.username = u)) = true
    · simp [h, List.take_length]
    · simp only [h, if_false, Bool.false_eq_true]
      exact List.take_left _ _

/-- C4 witness: the amended theorem applied to a one-account pending store. -/
theorem c4_witness :
    (({ id := 1, username := "alice" } : SRow).username = "alice" →
      ({ id := 1, username := "alice", followed_at := some 1000,
         check_unfollow_at := some (1000 + hours24) } : SRow)
        ∈ SimpleDB.mark_followed [{ id := 1, username := "alice" }] 1000 "alice")
    ∧ ((SimpleDB.mark_follow_back_status [{ id := 1, username := "alice" }]
          "alice" true).map (fun x => x.check_unfollow_at)
        = ([{ id := 1, username := "alice" }] : List SRow).map
            (fun x => x.check_unfollow_at))
    ∧ ((SimpleDB.mark_unfollowed [{ id := 1, username := "alice" }] 1000
          "alice").map (fun x => x.check_unfollow_at)
        = ([{ id := 1, username := "alice" }] : List SRow).map
            (fun x => x.check_unfollow_at))
    ∧ ((SimpleDB.add_follower [{ id := 1, username := "alice" }] "alice").1.take
          ([{ id := 1, username := "alice" }] : List SRow).length
        = [{ id := 1, username := "alice" }]) :=
  c4_check_due_fixed_24h [{ id := 1, username := "alice" }] 1000 "alice" true
    { id := 1, username := "alice" } (by decide)

/-- C5: the claim describes the first definition of
`InstagramBot.execute_follow_batch`, which does return the zero summary once
`follows_today` reaches the cap; but the second definition of the same class
— the one that shadows the first and is imported by `scheduler_system.py` —
performs follow attempts with no daily-cap comparison: on `c5_db`, with the
cap already reached (`follows_today = 1 ≥ max_follows_per_day = 1`), it still
attempts and completes one follow. -/
theorem c5_effective_batch_ignores_daily_cap :
    (c5_db.get_statistics 600).follows_today = 1
    ∧ (execute_follow_batch_def1 c5_db (fun _ => FollowOutcome.followOk) 600 1 5).2
        = ({} : FollowStats)
    ∧ (execute_follow_batch_def2 c5_db (fun _ => FollowOutcome.followOk) 600 5).2.success
        = 1 := by
  decide

/-- C6: an account in the terminal `UNFOLLOWED` state is never returned
again: not by the optimized store's due-for-follow or due-for-check queries,
and not by the simple store's due-for-follow or due-for-check-unfollow
queries. -/
theorem c6_unfollowed_terminal (db : List ORow) (sdb : List SRow)
    (lim now : Nat) (u : String)
    (hopt : ∀ r ∈ db, r.username = u → r.status = OStatus.unfollowed)
    (hsim : ∀ s ∈ sdb, s.username = u →
      s.unfollowed_at ≠ none ∧ s.followed_at ≠ none) :
    (∀ p ∈ OptDB.get_users_to_follow db lim, p.1 ≠ u)
    ∧ (∀ p ∈ OptDB.get_users_to_check_unfollow db now, p.1 ≠ u)
    ∧ (∀ v ∈ SimpleDB.get_users_to_follow sdb lim, v ≠ u)
    ∧ (∀ v ∈ SimpleDB.get_users_to_check_unfollow sdb now, v ≠ u) := by
  refine ⟨?_, ?_, ?_, ?_⟩
  · intro p hp
    obtain ⟨r, hr, hpr⟩ := List.mem_map.mp hp
    subst hpr
    intro hpu
    obtain ⟨hrdb, hrp⟩ := List.mem_filter.mp ((mem_sortByKey).mp
      (List.mem_of_mem_take hr))
    have hst : r.status = OStatus.pending := by simpa using hrp
    have := hopt r hrdb hpu
    rw [hst] at this
    exact absurd this (by decide)
  · intro p hp
    obtain ⟨r, hr, hpr⟩ := List.mem_map.mp hp
    subst hpr
    intro hpu
    obtain ⟨hrdb, hrp⟩ := List.mem_filter.mp hr
    simp only [Bool.and_eq_true, decide_eq_true_eq] at hrp
    have := hopt r hrdb hpu
    rw [hrp.1.2] at this
    exact absurd this (by decide)
  · intro v hv
    obtain ⟨s, hs, hvs⟩ := List.mem_map.mp hv
    subst hvs
    intro hvu
    obtain ⟨hsdb, hsp⟩ := List.mem_filter.mp (List.mem_of_mem_take hs)
    have hf : s.followed_at = none := by simpa using hsp
    exact (hsim s hsdb hvu).2 hf
  · intro v hv
    obtain ⟨s, hs, hvs⟩ := List.mem_map.mp hv
    subst hvs
    intro hvu
    obtain ⟨hsdb, hsp⟩ := List.mem_filter.mp hs
    simp only [Bool.and_eq_true, decide_eq_true_eq] at hsp
    exact (hsim s hsdb hvu).1 hsp.1.2

/-- C6 witness: the theorem applied to stores holding only a terminal
account, showing `alice` is excluded from the due queries. -/
theorem c6_witness :
    ("alice", "https://www.instagram.com/alice/") ∉ OptDB.get_users_to_follow c2_db 5
    ∧ "alice" ∉ SimpleDB.get_users_to_check_unfollow c6_sdb 1000000 := by
  have h := c6_unfollowed_terminal c2_db c6_sdb 5 1000000 "alice"
    (by decide) (by decide)
  exact ⟨fun hm => h.1 _ hm rfl, fun hm => h.2.2.2 _ hm rfl⟩

/-- C7: the due-for-follow query returns at most `limit` accounts, every
returned account comes from a `PENDING` row, and — for a store whose rows are
in rowid (insertion) order — the result is an in-order sublist of the store's
projection, i.e. accounts come back in insertion order. -/
theorem c7_follow_query_bounded_pending_ordered (db : List ORow) (lim : Nat) :
    (OptDB.get_users_to_follow db lim).length ≤ lim
    ∧ (∀ p ∈ OptDB.get_users_to_follow db lim,
        ∃ r, r ∈ db ∧ r.status = OStatus.pending ∧ p = (r.username, r.profile_link))
    ∧ (db.Pairwise (fun a b => a.id ≤ b.id) →
        (OptDB.get_users_to_follow db lim).Sublist
          (db.map (fun r => (r.username, r.profile_link)))) := by
  refine ⟨?_, ?_, ?_⟩
  · simp only [OptDB.get_users_to_follow, List.length_map]
    exact List.length_take_le _ _
  · intro p hp
    obtain ⟨r, hr, hpr⟩ := List.mem_map.mp hp
    obtain ⟨hrdb, hrp⟩ := List.mem_filter.mp ((mem_sortByKey).mp
      (List.mem_of_mem_take hr))
    exact ⟨r, hrdb, by simpa using hrp, hpr.symm⟩
  · intro hsorted
    have hfil := hsorted.filter (fun r => decide (r.status = OStatus.pending))
    rw [OptDB.get_users_to_follow, sortByKey_eq_self hfil]
    exact List.Sublist.map _ ((List.take_sublist _ _).trans (List.filter_sublist _))

/-- C7 witness: the theorem applied to the insertion-ordered store `c7_db`
with limit 1. -/
theorem c7_witness :
    (OptDB.get_users_to_follow c7_db 1).length ≤ 1
    ∧ (OptDB.get_users_to_follow c7_db 1).Sublist
        (c7_db.map (fun r => (r.username, r.profile_link))) := by
  have h := c7_follow_query_bounded_pending_ordered c7_db 1
  exact ⟨h.1, h.2.2 (by decide)⟩

/-- C8: a single account failure (failed device action or caught exception)
never aborts a batch: both loops process every pulled account and the
returned summary satisfies `success + failed = attempted`, for every
combination of per-account outcomes; the same holds for the full batch entry
points whenever their cap gate lets the loop run. -/
theorem c8_batch_never_aborts (db : ImprovedDB) (exec : String → FollowOutcome)
    (uexec : String → UnfollowOutcome) (now maxF batch maxU : Nat) :
    (∀ fs : List Follower,
      (fs.foldl (followStep exec now) (db, {})).2.success
        + (fs.foldl (followStep exec now) (db, {})).2.failed = fs.length)
    ∧ (∀ us : List (Nat × String),
      (us.foldl (unfollowStep uexec now) (db, {})).2.success
        + (us.foldl (unfollowStep uexec now) (db, {})).2.failed = us.length)
    ∧ ((db.get_statistics now).follows_today < maxF →
        (execute_follow_batch_def1 db exec now maxF batch).2.success
          + (execute_follow_batch_def1 db exec now maxF batch).2.failed
        = (db.get_followers_to_follow batch).length)
    ∧ ((db.get_statistics now).unfollows_today < maxU →
        (execute_unfollow_batch_def1 db uexec now maxU).2.success
          + (execute_unfollow_batch_def1 db uexec now maxU).2.failed
        = (db.unfollow_candidates
            (maxU - (db.get_statistics now).unfollows_today)).length) := by
  refine ⟨?_, ?_, ?_, ?_⟩
  · intro fs
    simpa using followLoop_counts exec now fs db {}
  · intro us
    simpa using unfollowLoop_counts uexec now us db {}
  · intro hlt
    rw [execute_follow_batch_def1, if_neg (by omega)]
    simpa using followLoop_counts exec now (db.get_followers_to_follow batch) db {}
  · intro hlt
    simp only [execute_unfollow_batch_def1]
    rw [if_neg (by omega)]
    simpa using unfollowLoop_counts uexec now
      (db.unfollow_candidates (maxU - (db.get_statistics now).unfollows_today)) db {}

/-- C8 witness: the batch entry point on `c5_db` under a loose cap returns a
summary accounting for every pulled account. -/
theorem c8_witness :
    (execute_follow_batch_def1 c5_db (fun _ => FollowOutcome.followOk) 600 5 5).2.success
      + (execute_follow_batch_def1 c5_db (fun _ => FollowOutcome.followOk) 600 5 5).2.failed
    = (c5_db.get_followers_to_follow 5).length := by
  have h := c8_batch_never_aborts c5_db (fun _ => FollowOutcome.followOk)
    (fun _ => UnfollowOutcome.ok) 600 5 5 5
  exact h.2.2.1 (by decide)

/-- C9 counterexample: on `c9_db` the statistics of `OptimizedBot.show_stats`
report the rate `follows_back / followed * 100 = 50` (denominator: accounts
still in `FOLLOWED`), while the claimed formula
`FOLLOWS_BACK / (FOLLOWS_BACK + NO_FOLLOW_BACK)` gives `1`; and on `c9_idb`
`InstagramDatabase.get_statistics` reports `50`, a percentage, where the
claimed formula gives `1 / 2`. -/
theorem c9_show_stats_rate_mismatch :
    OptDB.show_stats_rate c9_db = some 50
    ∧ OptDB.statusCount c9_db OStatus.follows_back = 1
    ∧ OptDB.statusCount c9_db OStatus.no_follow_back = 0
    ∧ follow_back_rate_spec 1 0 = 1
    ∧ some (50 : ℚ) ≠ some (follow_back_rate_spec 1 0)
    ∧ (c9_idb.get_statistics 0).follow_back_rate = 50
    ∧ follow_back_rate_spec 1 1 = 1 / 2
    ∧ (50 : ℚ) ≠ 1 / 2 := by
  have h1 : OptDB.statusCount c9_db OStatus.followed = 2 := by decide
  have h2 : OptDB.statusCount c9_db OStatus.follows_back = 1 := by decide
  have h3 : c9_idb.follow_backs.countP
      (fun fb => decide (fb.followed_back = some true)) = 1 := by decide
  have h4 : c9_idb.follow_backs.countP
      (fun fb => !decide (fb.followed_back = none)) = 2 := by decide
  refine ⟨?_, h2, by decide, ?_, ?_, ?_, ?_, by norm_num⟩
  · simp only [OptDB.show_stats_rate, h1, h2]
    norm_num
  · norm_num [follow_back_rate_spec]
  · norm_num [follow_back_rate_spec]
  · simp only [ImprovedDB.get_statistics, h3, h4]
    norm_num
  · norm_num [follow_back_rate_spec]

/-- C9 (amended): `InstagramDatabase.get_statistics` reports the follow-back
rate as the percentage `100 × FOLLOWS_BACK / (FOLLOWS_BACK + NO_FOLLOW_BACK)`
when the denominator is positive and `0` otherwise — its `IS NOT NULL`
denominator is exactly the reciprocated plus the non-reciprocated count.
(`OptimizedBot.show_stats` does not implement this formula; see the
counterexample.) -/
theorem c9_statistics_rate_formula (db : ImprovedDB) (now : Nat) :
    (db.get_statistics now).follow_back_rate =
      if 0 < db.fbCount + db.nfbCount then
        100 * (db.fbCount : ℚ) / ((db.fbCount : ℚ) + (db.nfbCount : ℚ))
      else 0 := by
  have hsplit := countP_followed_back_split db.follow_backs
  simp only [ImprovedDB.get_statistics, ImprovedDB.fbCount, ImprovedDB.nfbCount]
  rw [hsplit]
  by_cases h : 0 < db.follow_backs.countP
        (fun fb => decide (fb.followed_back = some true))
      + db.follow_backs.countP (fun fb => decide (fb.followed_back = some false))
  · rw [if_pos h, if_pos h]
    push_cast
    ring
  · rw [if_neg h, if_neg h]

/-- C10: the unfollow batch pulls at most
`max_unfollows_per_day - unfollows_today` accounts, so one batch run cannot
push the daily unfollow total past the cap; the follow batch, by contrast,
checks its cap only once before starting and can overshoot it within a
single run (shown on `c10_db`: one follow already today, cap 2, yet two more
follows are completed). -/
theorem c10_unfollow_pull_bounded_by_remaining_cap (db : ImprovedDB)
    (uexec : String → UnfollowOutcome) (now maxU : Nat) :
    (db.unfollow_candidates
        (maxU - (db.get_statistics now).unfollows_today)).length
      ≤ maxU - (db.get_statistics now).unfollows_today
    ∧ ((db.get_statistics now).unfollows_today ≤ maxU →
        (db.get_statistics now).unfollows_today
          + (execute_unfollow_batch_def1 db uexec now maxU).2.success ≤ maxU)
    ∧ 2 < (c10_db.get_statistics 600).follows_today
          + (execute_follow_batch_def1 c10_db (fun _ => FollowOutcome.followOk)
              600 2 5).2.success := by
  have hlen : (db.unfollow_candidates
      (maxU - (db.get_statistics now).unfollows_today)).length
      ≤ maxU - (db.get_statistics now).unfollows_today := by
    simp only [ImprovedDB.unfollow_candidates]
    exact List.length_take_le _ _
  refine ⟨hlen, ?_, by decide⟩
  intro hle
  by_cases h : maxU ≤ (db.get_statistics now).unfollows_today
  · simp only [execute_unfollow_batch_def1, if_pos h]
    omega
  · simp only [execute_unfollow_batch_def1, if_neg h]
    have hcount : ((db.unfollow_candidates
          (maxU - (db.get_statistics now).unfollows_today)).foldl
            (unfollowStep uexec now) (db, {})).2.success
        + ((db.unfollow_candidates
          (maxU - (db.get_statistics now).unfollows_today)).foldl
            (unfollowStep uexec now) (db, {})).2.failed
        = (db.unfollow_candidates
            (maxU - (db.get_statistics now).unfollows_today)).length := by
      simpa using unfollowLoop_counts uexec now
        (db.unfollow_candidates (maxU - (db.get_statistics now).unfollows_today))
        db {}
    omega

/-- C10 witness: the bound applied to `c5_db` with cap 3 and no unfollows
recorded today. -/
theorem c10_witness :
    (c5_db.get_statistics 600).unfollows_today
      + (execute_unfollow_batch_def1 c5_db (fun _ => UnfollowOutcome.ok)
          600 3).2.success ≤ 3 :=
  (c10_unfollow_pull_bounded_by_remaining_cap c5_db (fun _ => UnfollowOutcome.ok)
      600 3).2.1 (by decide)
